import Mathlib

/-!
Verification development for the `oracle` command-line wrapper
(`src/vendor/gemini-webapi/wrapper.py`).

The Python source is shallowly embedded: `parse_args` becomes a pure
recursive function over the token list, and the async `run` entry point
becomes a pure function from an abstract environment (file-system oracle,
credential variables, remote-client behaviour) to an observable outcome
(ordered event trace, stdout items, stderr lines, exit code).
-/

namespace Oracle

/-- Python's `str.startswith`, computed on the character list so that it
reduces definitionally. -/
def strStartsWith (s p : String) : Bool := p.toList.isPrefixOf s.toList

/-- Python's `str.endswith`, computed on the character list. -/
def strEndsWith (s p : String) : Bool := p.toList.isSuffixOf s.toList

/-- Helper for `strContains`: does `p` occur as a contiguous sublist? -/
def charsInfix (p : List Char) : List Char → Bool
  | [] => p.isEmpty
  | c :: rest => p.isPrefixOf (c :: rest) || charsInfix p rest

/-- Python's substring test `p in s`, computed on the character list. -/
def strContains (s p : String) : Bool := charsInfix p.toList s.toList

/-- The structured request built by `parse_args` (the Python result dict).
In the source, `prompt` starts as `None` and is only assigned on the
success path; it is modelled as a `String` initialised to `""`. -/
structure Request where
  prompt : String
  files : List String
  youtube : Option String
  generate_image : Option String
  edit : Option String
  output : Option String
  aspect : Option String
  show_thoughts : Bool
  model : String
  json_output : Bool
deriving Repr, DecidableEq

/-- The initial dict of `parse_args` (wrapper.py lines 67-78). -/
def defaultRequest : Request :=
  { prompt := ""
    files := []
    youtube := none
    generate_image := none
    edit := none
    output := none
    aspect := none
    show_thoughts := false
    model := "gemini-3.0-pro"
    json_output := false }

/-- Outcome of `parse_args`: `--help` path (exit 0), an error path
(stderr lines then exit 1), or a completed request. -/
inductive ParseResult where
  | help
  | error (lines : List String)
  | ok (req : Request)
deriving Repr, DecidableEq

/-- The scanning loop of `parse_args` (wrapper.py lines 80-149): walks the
token list left to right, carrying the partially built request and the
accumulated positional words. -/
def parseLoop : List String → Request → List String → ParseResult
  | [], acc, positional =>
    if positional.isEmpty then
      ParseResult.error ["Error: PROMPT is required", "Use --help for usage information"]
    else
      ParseResult.ok { acc with prompt := String.intercalate " " positional }
  | a :: rest, acc, positional =>
    if a = "--help" ∨ a = "-h" then
      ParseResult.help
    else if a = "--file" ∨ a = "-f" then
      match rest with
      | [] => ParseResult.error ["Error: --file requires a path"]
      | v :: rest2 => parseLoop rest2 { acc with files := acc.files ++ [v] } positional
    else if a = "--youtube" then
      match rest with
      | [] => ParseResult.error ["Error: --youtube requires a URL"]
      | v :: rest2 => parseLoop rest2 { acc with youtube := some v } positional
    else if a = "--generate-image" then
      match rest with
      | [] => ParseResult.error ["Error: --generate-image requires an output filename"]
      | v :: rest2 => parseLoop rest2 { acc with generate_image := some v } positional
    else if a = "--edit" then
      match rest with
      | [] => ParseResult.error ["Error: --edit requires an input image"]
      | v :: rest2 => parseLoop rest2 { acc with edit := some v } positional
    else if a = "--output" ∨ a = "-o" then
      match rest with
      | [] => ParseResult.error ["Error: --output requires a filename"]
      | v :: rest2 => parseLoop rest2 { acc with output := some v } positional
    else if a = "--aspect" then
      match rest with
      | [] => ParseResult.error ["Error: --aspect requires a ratio"]
      | v :: rest2 => parseLoop rest2 { acc with aspect := some v } positional
    else if a = "--show-thoughts" then
      parseLoop rest { acc with show_thoughts := true } positional
    else if a = "--model" then
      match rest with
      | [] => ParseResult.error ["Error: --model requires a model name"]
      | v :: rest2 => parseLoop rest2 { acc with model := v } positional
    else if a = "--json" then
      parseLoop rest { acc with json_output := true } positional
    else if !(strStartsWith a "-") then
      parseLoop rest acc (positional ++ [a])
    else
      ParseResult.error ["Error: Unknown option " ++ a]

/-- The function parse_args (wrapper.py lines 66-149). -/
def parse_args (args : List String) : ParseResult :=
  parseLoop args defaultRequest []

example : parse_args ["hello", "world"] =
    ParseResult.ok { defaultRequest with prompt := "hello world" } := by decide

example : parse_args ["--model", "--json", "x"] =
    ParseResult.ok { defaultRequest with model := "--json", prompt := "x" } := by decide

example : parse_args ["--file"] = ParseResult.error ["Error: --file requires a path"] := by
  decide

example : parse_args ["-x", "p"] = ParseResult.error ["Error: Unknown option -x"] := by
  decide

example : parse_args ["--json"] =
    ParseResult.error ["Error: PROMPT is required", "Use --help for usage information"] := by
  decide

/-- Outcome taxonomy of the parser as the specification words it: the
`--help`/`-h` terminal state, a recognized value-taking flag whose value
token is missing, an unrecognized flag-like token, no positional words
collected, or success with the ordered positional words. -/
inductive SpecOut where
  | help
  | errMissing (flag : String)
  | errUnknown (tok : String)
  | errNoPrompt
  | ok (words : List String)
deriving Repr, DecidableEq

/-- Classifier written from the specification's description of `parse_args`
(spec §4.1): left-to-right scan, each recognized value-taking flag consumes
exactly one following token (failing when it is missing, reported under the
flag's long form), boolean flags consume none, tokens not starting with `-`
are collected as positional words in order, any other flag-like token is an
immediate unknown-option failure, and an empty positional list at the end
is the no-prompt failure. -/
def specScan : List String → List String → SpecOut
  | [], pos => if pos.isEmpty then SpecOut.errNoPrompt else SpecOut.ok pos
  | a :: rest, pos =>
    if a = "--help" ∨ a = "-h" then SpecOut.help
    else if a = "--file" ∨ a = "-f" then
      match rest with
      | [] => SpecOut.errMissing "--file"
      | _ :: rest2 => specScan rest2 pos
    else if a = "--youtube" then
      match rest with
      | [] => SpecOut.errMissing "--youtube"
      | _ :: rest2 => specScan rest2 pos
    else if a = "--generate-image" then
      match rest with
      | [] => SpecOut.errMissing "--generate-image"
      | _ :: rest2 => specScan rest2 pos
    else if a = "--edit" then
      match rest with
      | [] => SpecOut.errMissing "--edit"
      | _ :: rest2 => specScan rest2 pos
    else if a = "--output" ∨ a = "-o" then
      match rest with
      | [] => SpecOut.errMissing "--output"
      | _ :: rest2 => specScan rest2 pos
    else if a = "--aspect" then
      match rest with
      | [] => SpecOut.errMissing "--aspect"
      | _ :: rest2 => specScan rest2 pos
    else if a = "--show-thoughts" then
      specScan rest pos
    else if a = "--model" then
      match rest with
      | [] => SpecOut.errMissing "--model"
      | _ :: rest2 => specScan rest2 pos
    else if a = "--json" then
      specScan rest pos
    else if !(strStartsWith a "-") then
      specScan rest (pos ++ [a])
    else
      SpecOut.errUnknown a

/-- The stderr line the implementation prints for a value-taking flag with
no following token, keyed by the flag's long form. -/
def missingValueMsg (f : String) : String :=
  if f = "--file" then "Error: --file requires a path"
  else if f = "--youtube" then "Error: --youtube requires a URL"
  else if f = "--generate-image" then "Error: --generate-image requires an output filename"
  else if f = "--edit" then "Error: --edit requires an input image"
  else if f = "--output" then "Error: --output requires a filename"
  else if f = "--aspect" then "Error: --aspect requires a ratio"
  else "Error: --model requires a model name"

/-- Relation between the implementation outcome and the spec-side outcome:
matching constructors, the implementation's stderr lines are the documented
ones (and name the flag for a missing value), and on success the prompt is
the positional words joined by single spaces with at least one word. -/
def ParseRel : ParseResult → SpecOut → Prop
  | ParseResult.help, SpecOut.help => True
  | ParseResult.error ls, SpecOut.errNoPrompt =>
      ls = ["Error: PROMPT is required", "Use --help for usage information"]
  | ParseResult.error ls, SpecOut.errMissing f =>
      ls = [missingValueMsg f] ∧ ∃ s, missingValueMsg f = "Error: " ++ (f ++ s)
  | ParseResult.error ls, SpecOut.errUnknown t =>
      ls = ["Error: Unknown option " ++ t]
  | ParseResult.ok r, SpecOut.ok ws =>
      r.prompt = String.intercalate " " ws ∧ ws ≠ []
  | _, _ => False

theorem parse_spec_rel : ∀ (args : List String) (acc : Request) (pos : List String),
    ParseRel (parseLoop args acc pos) (specScan args pos)
  | [], _acc, pos => by
    simp only [parseLoop, specScan]
    by_cases h : pos.isEmpty = true
    · simp only [if_pos h]
      exact rfl
    · simp only [if_neg h]
      refine ⟨rfl, ?_⟩
      intro hpos
      exact h (by rw [hpos]; rfl)
  | [a], acc, pos => by
    rw [parseLoop.eq_2, specScan.eq_2]
    by_cases h1 : a = "--help" ∨ a = "-h"
    · rw [if_pos h1, if_pos h1]
      exact trivial
    · rw [if_neg h1, if_neg h1]
      by_cases h2 : a = "--file" ∨ a = "-f"
      · rw [if_pos h2, if_pos h2]
        exact ⟨by decide, " requires a path", by decide⟩
      · rw [if_neg h2, if_neg h2]
        by_cases h3 : a = "--youtube"
        · rw [if_pos h3, if_pos h3]
          exact ⟨by decide, " requires a URL", by decide⟩
        · rw [if_neg h3, if_neg h3]
          by_cases h4 : a = "--generate-image"
          · rw [if_pos h4, if_pos h4]
            exact ⟨by decide, " requires an output filename", by decide⟩
          · rw [if_neg h4, if_neg h4]
            by_cases h5 : a = "--edit"
            · rw [if_pos h5, if_pos h5]
              exact ⟨by decide, " requires an input image", by decide⟩
            · rw [if_neg h5, if_neg h5]
              by_cases h6 : a = "--output" ∨ a = "-o"
              · rw [if_pos h6, if_pos h6]
                exact ⟨by decide, " requires a filename", by decide⟩
              · rw [if_neg h6, if_neg h6]
                by_cases h7 : a = "--aspect"
                · rw [if_pos h7, if_pos h7]
                  exact ⟨by decide, " requires a ratio", by decide⟩
                · rw [if_neg h7, if_neg h7]
                  by_cases h8 : a = "--show-thoughts"
                  · rw [if_pos h8, if_pos h8]
                    exact parse_spec_rel [] { acc with show_thoughts := true } pos
                  · rw [if_neg h8, if_neg h8]
                    by_cases h9 : a = "--model"
                    · rw [if_pos h9, if_pos h9]
                      exact ⟨by decide, " requires a model name", by decide⟩
                    · rw [if_neg h9, if_neg h9]
                      by_cases h10 : a = "--json"
                      · rw [if_pos h10, if_pos h10]
                        exact parse_spec_rel [] { acc with json_output := true } pos
                      · rw [if_neg h10, if_neg h10]
                        by_cases h11 : (!strStartsWith a "-") = true
                        · rw [if_pos h11, if_pos h11]
                          exact parse_spec_rel [] acc (pos ++ [a])
                        · rw [if_neg h11, if_neg h11]
                          exact rfl
  | a :: v :: rest2, acc, pos => by
    rw [parseLoop.eq_3, specScan.eq_3]
    by_cases h1 : a = "--help" ∨ a = "-h"
    · rw [if_pos h1, if_pos h1]
      exact trivial
    · rw [if_neg h1, if_neg h1]
      by_cases h2 : a = "--file" ∨ a = "-f"
      · rw [if_pos h2, if_pos h2]
        exact parse_spec_rel rest2 { acc with files := acc.files ++ [v] } pos
      · rw [if_neg h2, if_neg h2]
        by_cases h3 : a = "--youtube"
        · rw [if_pos h3, if_pos h3]
          exact parse_spec_rel rest2 { acc with youtube := some v } pos
        · rw [if_neg h3, if_neg h3]
          by_cases h4 : a = "--generate-image"
          · rw [if_pos h4, if_pos h4]
            exact parse_spec_rel rest2 { acc with generate_image := some v } pos
          · rw [if_neg h4, if_neg h4]
            by_cases h5 : a = "--edit"
            · rw [if_pos h5, if_pos h5]
              exact parse_spec_rel rest2 { acc with edit := some v } pos
            · rw [if_neg h5, if_neg h5]
              by_cases h6 : a = "--output" ∨ a = "-o"
              · rw [if_pos h6, if_pos h6]
                exact parse_spec_rel rest2 { acc with output := some v } pos
              · rw [if_neg h6, if_neg h6]
                by_cases h7 : a = "--aspect"
                · rw [if_pos h7, if_pos h7]
                  exact parse_spec_rel rest2 { acc with aspect := some v } pos
                · rw [if_neg h7, if_neg h7]
                  by_cases h8 : a = "--show-thoughts"
                  · rw [if_pos h8, if_pos h8]
                    exact parse_spec_rel (v :: rest2) { acc with show_thoughts := true } pos
                  · rw [if_neg h8, if_neg h8]
                    by_cases h9 : a = "--model"
                    · rw [if_pos h9, if_pos h9]
                      exact parse_spec_rel rest2 { acc with model := v } pos
                    · rw [if_neg h9, if_neg h9]
                      by_cases h10 : a = "--json"
                      · rw [if_pos h10, if_pos h10]
                        exact parse_spec_rel (v :: rest2) { acc with json_output := true } pos
                      · rw [if_neg h10, if_neg h10]
                        by_cases h11 : (!strStartsWith a "-") = true
                        · rw [if_pos h11, if_pos h11]
                          exact parse_spec_rel (v :: rest2) acc (pos ++ [a])
                        · rw [if_neg h11, if_neg h11]
                          exact rfl
termination_by args _ _ => args.length
decreasing_by all_goals (simp only [List.length_cons]; omega)


theorem specScan_ne_help : ∀ (args pos : List String), "--help" ∉ args → "-h" ∉ args →
    specScan args pos ≠ SpecOut.help
  | [], pos, _, _ => by
    intro hcon
    simp only [specScan] at hcon
    split_ifs at hcon
  | [a], pos, hm1, hm2 => by
    intro hcon
    rw [specScan.eq_2] at hcon
    by_cases h1 : a = "--help" ∨ a = "-h"
    · rcases h1 with h | h
      · exact hm1 (h ▸ List.mem_cons_self a [])
      · exact hm2 (h ▸ List.mem_cons_self a [])
    · rw [if_neg h1] at hcon
      by_cases h2 : a = "--file" ∨ a = "-f"
      · rw [if_pos h2] at hcon
        exact SpecOut.noConfusion hcon
      · rw [if_neg h2] at hcon
        by_cases h3 : a = "--youtube"
        · rw [if_pos h3] at hcon
          exact SpecOut.noConfusion hcon
        · rw [if_neg h3] at hcon
          by_cases h4 : a = "--generate-image"
          · rw [if_pos h4] at hcon
            exact SpecOut.noConfusion hcon
          · rw [if_neg h4] at hcon
            by_cases h5 : a = "--edit"
            · rw [if_pos h5] at hcon
              exact SpecOut.noConfusion hcon
            · rw [if_neg h5] at hcon
              by_cases h6 : a = "--output" ∨ a = "-o"
              · rw [if_pos h6] at hcon
                exact SpecOut.noConfusion hcon
              · rw [if_neg h6] at hcon
                by_cases h7 : a = "--aspect"
                · rw [if_pos h7] at hcon
                  exact SpecOut.noConfusion hcon
                · rw [if_neg h7] at hcon
                  by_cases h8 : a = "--show-thoughts"
                  · rw [if_pos h8] at hcon
                    exact specScan_ne_help [] pos (by simp) (by simp) hcon
                  · rw [if_neg h8] at hcon
                    by_cases h9 : a = "--model"
                    · rw [if_pos h9] at hcon
                      exact SpecOut.noConfusion hcon
                    · rw [if_neg h9] at hcon
                      by_cases h10 : a = "--json"
                      · rw [if_pos h10] at hcon
                        exact specScan_ne_help [] pos (by simp) (by simp) hcon
                      · rw [if_neg h10] at hcon
                        by_cases h11 : (!strStartsWith a "-") = true
                        · rw [if_pos h11] at hcon
                          exact specScan_ne_help [] (pos ++ [a]) (by simp) (by simp) hcon
                        · rw [if_neg h11] at hcon
                          exact SpecOut.noConfusion hcon
  | a :: v :: rest2, pos, hm1, hm2 => by
    intro hcon
    have hm1r : "--help" ∉ v :: rest2 := fun h => hm1 (List.mem_cons_of_mem _ h)
    have hm2r : "-h" ∉ v :: rest2 := fun h => hm2 (List.mem_cons_of_mem _ h)
    have hm1r2 : "--help" ∉ rest2 := fun h => hm1r (List.mem_cons_of_mem _ h)
    have hm2r2 : "-h" ∉ rest2 := fun h => hm2r (List.mem_cons_of_mem _ h)
    rw [specScan.eq_3] at hcon
    by_cases h1 : a = "--help" ∨ a = "-h"
    · rcases h1 with h | h
      · exact hm1 (h ▸ List.mem_cons_self a (v :: rest2))
      · exact hm2 (h ▸ List.mem_cons_self a (v :: rest2))
    · rw [if_neg h1] at hcon
      by_cases h2 : a = "--file" ∨ a = "-f"
      · rw [if_pos h2] at hcon
        exact specScan_ne_help rest2 pos hm1r2 hm2r2 hcon
      · rw [if_neg h2] at hcon
        by_cases h3 : a = "--youtube"
        · rw [if_pos h3] at hcon
          exact specScan_ne_help rest2 pos hm1r2 hm2r2 hcon
        · rw [if_neg h3] at hcon
          by_cases h4 : a = "--generate-image"
          · rw [if_pos h4] at hcon
            exact specScan_ne_help rest2 pos hm1r2 hm2r2 hcon
          · rw [if_neg h4] at hcon
            by_cases h5 : a = "--edit"
            · rw [if_pos h5] at hcon
              exact specScan_ne_help rest2 pos hm1r2 hm2r2 hcon
            · rw [if_neg h5] at hcon
              by_cases h6 : a = "--output" ∨ a = "-o"
              · rw [if_pos h6] at hcon
                exact specScan_ne_help rest2 pos hm1r2 hm2r2 hcon
              · rw [if_neg h6] at hcon
                by_cases h7 : a = "--aspect"
                · rw [if_pos h7] at hcon
                  exact specScan_ne_help rest2 pos hm1r2 hm2r2 hcon
                · rw [if_neg h7] at hcon
                  by_cases h8 : a = "--show-thoughts"
                  · rw [if_pos h8] at hcon
                    exact specScan_ne_help (v :: rest2) pos hm1r hm2r hcon
                  · rw [if_neg h8] at hcon
                    by_cases h9 : a = "--model"
                    · rw [if_pos h9] at hcon
                      exact specScan_ne_help rest2 pos hm1r2 hm2r2 hcon
                    · rw [if_neg h9] at hcon
                      by_cases h10 : a = "--json"
                      · rw [if_pos h10] at hcon
                        exact specScan_ne_help (v :: rest2) pos hm1r hm2r hcon
                      · rw [if_neg h10] at hcon
                        by_cases h11 : (!strStartsWith a "-") = true
                        · rw [if_pos h11] at hcon
                          exact specScan_ne_help (v :: rest2) (pos ++ [a]) hm1r hm2r hcon
                        · rw [if_neg h11] at hcon
                          exact SpecOut.noConfusion hcon
termination_by args _ _ _ => args.length
decreasing_by all_goals (simp only [List.length_cons]; omega)

/-- C3 (amended): absent `--help`/`-h`, `parse_args` fails with exit code 1
exactly when a recognized value-taking flag has no following token (with a
stderr message naming the flag), an unrecognized token starting with `-`
appears, or no positional tokens were collected; otherwise it returns a
fully populated Request whose prompt is the positional words joined by
single spaces (at least one positional word was collected, though the
joined prompt may itself be empty when every positional token is the empty
string). -/
theorem parse_args_error_exactly_and_prompt_join (args : List String)
    (hh : "--help" ∉ args) (hh2 : "-h" ∉ args) :
    specScan args [] ≠ SpecOut.help
    ∧ (specScan args [] = SpecOut.errNoPrompt →
        parse_args args =
          ParseResult.error ["Error: PROMPT is required", "Use --help for usage information"])
    ∧ (∀ f, specScan args [] = SpecOut.errMissing f →
        parse_args args = ParseResult.error [missingValueMsg f]
        ∧ ∃ s, missingValueMsg f = "Error: " ++ (f ++ s))
    ∧ (∀ t, specScan args [] = SpecOut.errUnknown t →
        parse_args args = ParseResult.error ["Error: Unknown option " ++ t])
    ∧ (∀ ws, specScan args [] = SpecOut.ok ws →
        ∃ r, parse_args args = ParseResult.ok r
          ∧ r.prompt = String.intercalate " " ws ∧ ws ≠ [])
    ∧ ((∃ r, parse_args args = ParseResult.ok r) ↔ ∃ ws, specScan args [] = SpecOut.ok ws) := by
  have hne := specScan_ne_help args [] hh hh2
  have hrel := parse_spec_rel args defaultRequest []
  refine ⟨hne, ?_, ?_, ?_, ?_, ?_, ?_⟩
  · intro hs
    rw [hs] at hrel
    show parseLoop args defaultRequest [] = _
    cases hp : parseLoop args defaultRequest [] <;> rw [hp] at hrel
    · exact hrel.elim
    · exact congrArg ParseResult.error hrel
    · exact hrel.elim
  · intro f hs
    rw [hs] at hrel
    show parseLoop args defaultRequest [] = _ ∧ _
    cases hp : parseLoop args defaultRequest [] <;> rw [hp] at hrel
    · exact hrel.elim
    · exact ⟨congrArg ParseResult.error hrel.1, hrel.2⟩
    · exact hrel.elim
  · intro t hs
    rw [hs] at hrel
    show parseLoop args defaultRequest [] = _
    cases hp : parseLoop args defaultRequest [] <;> rw [hp] at hrel
    · exact hrel.elim
    · exact congrArg ParseResult.error hrel
    · exact hrel.elim
  · intro ws hs
    rw [hs] at hrel
    show ∃ r, parseLoop args defaultRequest [] = ParseResult.ok r
      ∧ r.prompt = String.intercalate " " ws ∧ ws ≠ []
    cases hp : parseLoop args defaultRequest [] <;> rw [hp] at hrel
    · exact hrel.elim
    · exact hrel.elim
    · exact ⟨_, rfl, hrel.1, hrel.2⟩
  · rintro ⟨r, hr⟩
    have hr2 : parseLoop args defaultRequest [] = ParseResult.ok r := hr
    rw [hr2] at hrel
    cases hs : specScan args [] <;> rw [hs] at hrel
    · exact hrel.elim
    · exact hrel.elim
    · exact hrel.elim
    · exact hrel.elim
    · exact ⟨_, rfl⟩
  · rintro ⟨ws, hs⟩
    rw [hs] at hrel
    show ∃ r, parseLoop args defaultRequest [] = ParseResult.ok r
    cases hp : parseLoop args defaultRequest [] <;> rw [hp] at hrel
    · exact hrel.elim
    · exact hrel.elim
    · exact ⟨_, rfl⟩

/-- C3 counterexample: with the single argument `""` (one empty positional
token), `parse_args` succeeds and the returned prompt is the empty string,
so the claim's parenthetical "hence non-empty" fails as stated. -/
theorem parse_args_empty_token_counterexample :
    parse_args [""] = ParseResult.ok
      { prompt := "", files := [], youtube := none, generate_image := none,
        edit := none, output := none, aspect := none, show_thoughts := false,
        model := "gemini-3.0-pro", json_output := false }
    ∧ String.intercalate " " [""] = "" := by
  exact ⟨by decide, rfl⟩

theorem parse_args_error_exactly_and_prompt_join_witness :
    ("--help" ∉ ["hi", "--json"]) ∧ ("-h" ∉ ["hi", "--json"])
    ∧ specScan ["hi", "--json"] [] = SpecOut.ok ["hi"]
    ∧ ∃ r, parse_args ["hi", "--json"] = ParseResult.ok r
        ∧ r.prompt = String.intercalate " " ["hi"] ∧ (["hi"] : List String) ≠ [] :=
  ⟨by decide, by decide, by decide,
    (parse_args_error_exactly_and_prompt_join ["hi", "--json"] (by decide)
      (by decide)).2.2.2.2.1 ["hi"] (by decide)⟩


/-- The ordered list of value tokens consumed by `--file`/`-f` occurrences
under the parser's left-to-right consumption discipline (each recognized
value-taking flag consumes the following token; boolean flags consume
none; scanning stops where the parser stops). -/
def collectFileValues : List String → List String
  | [] => []
  | [_] => []
  | a :: v :: rest2 =>
    if a = "--help" ∨ a = "-h" then []
    else if a = "--file" ∨ a = "-f" then v :: collectFileValues rest2
    else if a = "--youtube" then collectFileValues rest2
    else if a = "--generate-image" then collectFileValues rest2
    else if a = "--edit" then collectFileValues rest2
    else if a = "--output" ∨ a = "-o" then collectFileValues rest2
    else if a = "--aspect" then collectFileValues rest2
    else if a = "--show-thoughts" then collectFileValues (v :: rest2)
    else if a = "--model" then collectFileValues rest2
    else if a = "--json" then collectFileValues (v :: rest2)
    else if !(strStartsWith a "-") then collectFileValues (v :: rest2)
    else []

/-- The number of `--file`/`-f` occurrences at flag position under the same
consumption discipline. -/
def countFileFlags : List String → Nat
  | [] => 0
  | [a] => if a = "--file" ∨ a = "-f" then 1 else 0
  | a :: v :: rest2 =>
    if a = "--help" ∨ a = "-h" then 0
    else if a = "--file" ∨ a = "-f" then 1 + countFileFlags rest2
    else if a = "--youtube" then countFileFlags rest2
    else if a = "--generate-image" then countFileFlags rest2
    else if a = "--edit" then countFileFlags rest2
    else if a = "--output" ∨ a = "-o" then countFileFlags rest2
    else if a = "--aspect" then countFileFlags rest2
    else if a = "--show-thoughts" then countFileFlags (v :: rest2)
    else if a = "--model" then countFileFlags rest2
    else if a = "--json" then countFileFlags (v :: rest2)
    else if !(strStartsWith a "-") then countFileFlags (v :: rest2)
    else 0

theorem parseLoop_files : ∀ (args : List String) (acc : Request) (pos : List String)
    (r : Request), parseLoop args acc pos = ParseResult.ok r →
    r.files = acc.files ++ collectFileValues args
    ∧ (collectFileValues args).length = countFileFlags args
  | [], acc, pos, r => by
    intro h
    simp only [parseLoop] at h
    by_cases hp : pos.isEmpty = true
    · rw [if_pos hp] at h
      exact ParseResult.noConfusion h
    · rw [if_neg hp] at h
      injection h with h2
      refine ⟨?_, rfl⟩
      rw [← h2]
      simp [collectFileValues]
  | [a], acc, pos, r => by
    intro h
    rw [parseLoop.eq_2] at h
    by_cases h1 : a = "--help" ∨ a = "-h"
    · rw [if_pos h1] at h
      exact ParseResult.noConfusion h
    · rw [if_neg h1] at h
      by_cases h2 : a = "--file" ∨ a = "-f"
      · rw [if_pos h2] at h
        exact ParseResult.noConfusion h
      · rw [if_neg h2] at h
        by_cases h3 : a = "--youtube"
        · rw [if_pos h3] at h
          exact ParseResult.noConfusion h
        · rw [if_neg h3] at h
          by_cases h4 : a = "--generate-image"
          · rw [if_pos h4] at h
            exact ParseResult.noConfusion h
          · rw [if_neg h4] at h
            by_cases h5 : a = "--edit"
            · rw [if_pos h5] at h
              exact ParseResult.noConfusion h
            · rw [if_neg h5] at h
              by_cases h6 : a = "--output" ∨ a = "-o"
              · rw [if_pos h6] at h
                exact ParseResult.noConfusion h
              · rw [if_neg h6] at h
                by_cases h7 : a = "--aspect"
                · rw [if_pos h7] at h
                  exact ParseResult.noConfusion h
                · rw [if_neg h7] at h
                  by_cases h8 : a = "--show-thoughts"
                  · rw [if_pos h8] at h
                    have ih := parseLoop_files [] { acc with show_thoughts := true } pos r h
                    refine ⟨ih.1, ?_⟩
                    simp only [collectFileValues, countFileFlags, List.length_nil]
                    rw [if_neg h2]
                  · rw [if_neg h8] at h
                    by_cases h9 : a = "--model"
                    · rw [if_pos h9] at h
                      exact ParseResult.noConfusion h
                    · rw [if_neg h9] at h
                      by_cases h10 : a = "--json"
                      · rw [if_pos h10] at h
                        have ih := parseLoop_files [] { acc with json_output := true } pos r h
                        refine ⟨ih.1, ?_⟩
                        simp only [collectFileValues, countFileFlags, List.length_nil]
                        rw [if_neg h2]
                      · rw [if_neg h10] at h
                        by_cases h11 : (!strStartsWith a "-") = true
                        · rw [if_pos h11] at h
                          have ih := parseLoop_files [] acc (pos ++ [a]) r h
                          refine ⟨ih.1, ?_⟩
                          simp only [collectFileValues, countFileFlags, List.length_nil]
                          rw [if_neg h2]
                        · rw [if_neg h11] at h
                          exact ParseResult.noConfusion h
  | a :: v :: rest2, acc, pos, r => by
    intro h
    rw [parseLoop.eq_3] at h
    rw [collectFileValues.eq_3, countFileFlags.eq_3]
    by_cases h1 : a = "--help" ∨ a = "-h"
    · rw [if_pos h1] at h
      exact ParseResult.noConfusion h
    · rw [if_neg h1] at h
      rw [if_neg h1, if_neg h1]
      by_cases h2 : a = "--file" ∨ a = "-f"
      · rw [if_pos h2] at h
        rw [if_pos h2, if_pos h2]
        obtain ⟨ih1, ih2⟩ := parseLoop_files rest2 { acc with files := acc.files ++ [v] } pos r h
        constructor
        · rw [ih1]
          simp [List.append_assoc]
        · simp only [List.length_cons, ih2]
          omega
      · rw [if_neg h2] at h
        rw [if_neg h2, if_neg h2]
        by_cases h3 : a = "--youtube"
        · rw [if_pos h3] at h
          rw [if_pos h3, if_pos h3]
          exact parseLoop_files rest2 { acc with youtube := some v } pos r h
        · rw [if_neg h3] at h
          rw [if_neg h3, if_neg h3]
          by_cases h4 : a = "--generate-image"
          · rw [if_pos h4] at h
            rw [if_pos h4, if_pos h4]
            exact parseLoop_files rest2 { acc with generate_image := some v } pos r h
          · rw [if_neg h4] at h
            rw [if_neg h4, if_neg h4]
            by_cases h5 : a = "--edit"
            · rw [if_pos h5] at h
              rw [if_pos h5, if_pos h5]
              exact parseLoop_files rest2 { acc with edit := some v } pos r h
            · rw [if_neg h5] at h
              rw [if_neg h5, if_neg h5]
              by_cases h6 : a = "--output" ∨ a = "-o"
              · rw [if_pos h6] at h
                rw [if_pos h6, if_pos h6]
                exact parseLoop_files rest2 { acc with output := some v } pos r h
              · rw [if_neg h6] at h
                rw [if_neg h6, if_neg h6]
                by_cases h7 : a = "--aspect"
                · rw [if_pos h7] at h
                  rw [if_pos h7, if_pos h7]
                  exact parseLoop_files rest2 { acc with aspect := some v } pos r h
                · rw [if_neg h7] at h
                  rw [if_neg h7, if_neg h7]
                  by_cases h8 : a = "--show-thoughts"
                  · rw [if_pos h8] at h
                    rw [if_pos h8, if_pos h8]
                    exact parseLoop_files (v :: rest2) { acc with show_thoughts := true } pos r h
                  · rw [if_neg h8] at h
                    rw [if_neg h8, if_neg h8]
                    by_cases h9 : a = "--model"
                    · rw [if_pos h9] at h
                      rw [if_pos h9, if_pos h9]
                      exact parseLoop_files rest2 { acc with model := v } pos r h
                    · rw [if_neg h9] at h
                      rw [if_neg h9, if_neg h9]
                      by_cases h10 : a = "--json"
                      · rw [if_pos h10] at h
                        rw [if_pos h10, if_pos h10]
                        exact parseLoop_files (v :: rest2) { acc with json_output := true } pos r h
                      · rw [if_neg h10] at h
                        rw [if_neg h10, if_neg h10]
                        by_cases h11 : (!strStartsWith a "-") = true
                        · rw [if_pos h11] at h
                          rw [if_pos h11, if_pos h11]
                          exact parseLoop_files (v :: rest2) acc (pos ++ [a]) r h
                        · rw [if_neg h11] at h
                          rw [if_neg h11, if_neg h11]
                          exact ParseResult.noConfusion h
termination_by args _ _ _ => args.length
decreasing_by all_goals (simp only [List.length_cons]; omega)


/-- C8: for every argument list on which `parse_args` succeeds, the
returned `files` field is the ordered list of value tokens following each
`--file`/`-f` occurrence; its length equals the number of such occurrences
and the order of occurrence is preserved. -/
theorem files_accumulate_in_order (args : List String) (r : Request)
    (h : parse_args args = ParseResult.ok r) :
    r.files = collectFileValues args ∧ r.files.length = countFileFlags args := by
  have hh := parseLoop_files args defaultRequest [] r h
  have h1 : r.files = collectFileValues args := by
    rw [hh.1]
    simp [defaultRequest]
  exact ⟨h1, by rw [h1]; exact hh.2⟩

theorem files_accumulate_in_order_witness :
    parse_args ["p", "--file", "a", "-f", "b"]
        = ParseResult.ok { defaultRequest with prompt := "p", files := ["a", "b"] }
    ∧ (({ defaultRequest with prompt := "p", files := ["a", "b"] } : Request).files
          = collectFileValues ["p", "--file", "a", "-f", "b"]
      ∧ ({ defaultRequest with prompt := "p", files := ["a", "b"] } : Request).files.length
          = countFileFlags ["p", "--file", "a", "-f", "b"]) :=
  ⟨by decide, files_accumulate_in_order ["p", "--file", "a", "-f", "b"] _ (by decide)⟩

/-- C10: each recognized value-taking flag consumes the immediately
following token verbatim as its value even when that token begins with
`-`; in particular `[\"--model\", \"--json\", \"x\"]` yields model `--json`,
`json_output` false, and prompt `x`. -/
theorem value_flags_consume_next_token_verbatim :
    (∀ (acc : Request) (pos : List String) (v : String) (rest : List String),
        parseLoop ("--file" :: v :: rest) acc pos = parseLoop rest { acc with files := acc.files ++ [v] } pos)
    ∧     (∀ (acc : Request) (pos : List String) (v : String) (rest : List String),
        parseLoop ("-f" :: v :: rest) acc pos = parseLoop rest { acc with files := acc.files ++ [v] } pos)
    ∧     (∀ (acc : Request) (pos : List String) (v : String) (rest : List String),
        parseLoop ("--youtube" :: v :: rest) acc pos = parseLoop rest { acc with youtube := some v } pos)
    ∧     (∀ (acc : Request) (pos : List String) (v : String) (rest : List String),
        parseLoop ("--generate-image" :: v :: rest) acc pos = parseLoop rest { acc with generate_image := some v } pos)
    ∧     (∀ (acc : Request) (pos : List String) (v : String) (rest : List String),
        parseLoop ("--edit" :: v :: rest) acc pos = parseLoop rest { acc with edit := some v } pos)
    ∧     (∀ (acc : Request) (pos : List String) (v : String) (rest : List String),
        parseLoop ("--output" :: v :: rest) acc pos = parseLoop rest { acc with output := some v } pos)
    ∧     (∀ (acc : Request) (pos : List String) (v : String) (rest : List String),
        parseLoop ("-o" :: v :: rest) acc pos = parseLoop rest { acc with output := some v } pos)
    ∧     (∀ (acc : Request) (pos : List String) (v : String) (rest : List String),
        parseLoop ("--aspect" :: v :: rest) acc pos = parseLoop rest { acc with aspect := some v } pos)
    ∧     (∀ (acc : Request) (pos : List String) (v : String) (rest : List String),
        parseLoop ("--model" :: v :: rest) acc pos = parseLoop rest { acc with model := v } pos)
    ∧     parse_args ["--model", "--json", "x"]
        = ParseResult.ok { defaultRequest with model := "--json", prompt := "x" } := by
  refine ⟨?_, ?_, ?_, ?_, ?_, ?_, ?_, ?_, ?_, ?_⟩
  · intro acc pos v rest
    rw [parseLoop.eq_3]
    simp
  · intro acc pos v rest
    rw [parseLoop.eq_3]
    simp
  · intro acc pos v rest
    rw [parseLoop.eq_3]
    simp
  · intro acc pos v rest
    rw [parseLoop.eq_3]
    simp
  · intro acc pos v rest
    rw [parseLoop.eq_3]
    simp
  · intro acc pos v rest
    rw [parseLoop.eq_3]
    simp
  · intro acc pos v rest
    rw [parseLoop.eq_3]
    simp
  · intro acc pos v rest
    rw [parseLoop.eq_3]
    simp
  · intro acc pos v rest
    rw [parseLoop.eq_3]
    simp
  · decide

/-! ## The Request Runner (`run`, wrapper.py lines 151-291)

The async runner is embedded as a pure function from an abstract
environment (file-system oracle, credential variables, remote-client
behaviour) to an observable outcome: the ordered trace of effect events,
the stdout items, the stderr lines, and the exit code (`none` = normal
return, `some 1` = `sys.exit(1)`).  The remote client is opaque: each
content-generation attempt is one `dispatch` event whose result (a parsed
response or a raised exception) is given by the environment, indexed by
attempt number.  An edit-shape attempt's two chat turns are collapsed into
the one `dispatch` event that produces the captured response. -/

/-- A parsed remote response: text (empty string models Python
`None`/empty), optional thoughts, and the ordered image artifacts
(identified by abstract ids). -/
structure Response where
  text : String
  thoughts : Option String
  images : List Nat
deriving Repr, DecidableEq

/-- The dispatch shape selected at wrapper.py lines 210-218. -/
inductive Shape where
  | edit (img : String)
  | withFiles (fs : List String)
  | plain
deriving Repr, DecidableEq

/-- Observable effect events of one invocation, in program order. -/
inductive Ev where
  | checkFile (p : String)
  | clientConstruct (explicitCreds : Bool)
  | clientInit
  | dispatch (s : Shape) (model : String) (sent : String)
  | saveImage (path : String) (img : Nat)
  | close
deriving Repr, DecidableEq

/-- One stdout item: a printed line, or the JSON object printed by
`json.dumps` (kept structured so its fields can be inspected). -/
inductive OutItem where
  | line (s : String)
  | jsonObj (text : String) (thoughts : Option String) (hasImages : Bool) (imageCount : Nat)
deriving Repr, DecidableEq

/-- The abstract environment of one invocation: file-system oracle,
credential variables, whether client construction and `client.init`
succeed, the remote result of the k-th content-generation attempt, and
whether `image.save` raises. -/
structure Env where
  pathExists : String → Bool
  resolve : String → String
  secure1psid : Option String
  secure1psidts : Option String
  nid : Option String
  constructOk : Bool
  initOk : Bool
  initErrText : String
  dispatchResult : Nat → Except String Response
  saveExc : Option String

/-- Observable outcome of one invocation. -/
structure RunOut where
  events : List Ev
  stdout : List OutItem
  stderr : List String
  exit : Option Nat
deriving Repr, DecidableEq

/-- Python truthiness of an optional string: `None` and `""` are falsy. -/
def truthy : Option String → Bool
  | none => false
  | some s => s != ""

/-- The client is built with explicit credentials iff both primary
environment variables are truthy (wrapper.py line 195). -/
def explicitCreds (env : Env) : Bool :=
  truthy env.secure1psid && truthy env.secure1psidts

/-- The placeholder URL prefix of the fallback trigger (wrapper.py line 221). -/
def placeholderUrl : String :=
  "http://googleusercontent.com/image_generation_content/"

/-- Prompt augmentation (wrapper.py lines 162-184), in source order:
aspect-ratio suffix, YouTube suffix, generate-image prefix.  The source
interleaves the (prompt-independent) path checks between these steps; the
resulting prompt string is the same. -/
def augmentPrompt (a : Request) : String :=
  let p1 :=
    if truthy a.aspect && (truthy a.generate_image || truthy a.edit) then
      a.prompt ++ " (aspect ratio: " ++ a.aspect.getD "" ++ ")"
    else a.prompt
  let p2 :=
    if truthy a.youtube then p1 ++ "\n\nYouTube video: " ++ a.youtube.getD ""
    else p1
  if truthy a.generate_image && !truthy a.edit then "Generate an image: " ++ p2 else p2

/-- The attachment check-and-resolve loop (wrapper.py lines 165-170):
stops at the first missing path (returned as the error). -/
def checkFilesLoop (env : Env) : List String → List Ev × Except String (List String)
  | [] => ([], Except.ok [])
  | f :: fs =>
    if env.pathExists f then
      match checkFilesLoop env fs with
      | (evs, Except.ok rs) => (Ev.checkFile f :: evs, Except.ok (env.resolve f :: rs))
      | (evs, Except.error e) => (Ev.checkFile f :: evs, Except.error e)
    else ([Ev.checkFile f], Except.error f)

/-- Output path selection (wrapper.py line 246): Python
`args["generate_image"] or args["output"] or "generated.png"`. -/
def chosenOutputPath (a : Request) : String :=
  if truthy a.generate_image then a.generate_image.getD ""
  else if truthy a.output then a.output.getD ""
  else "generated.png"

/-- Rendering of a non-image response (wrapper.py lines 267-285).
`image_count` is `len(response.images) if response.images else 0`, which
equals the length in both cases. -/
def renderNonImage (a : Request) (resp : Response) : List OutItem :=
  if a.json_output then
    [OutItem.jsonObj resp.text (if a.show_thoughts then resp.thoughts else none)
      (!resp.images.isEmpty) resp.images.length]
  else
    (if a.show_thoughts && truthy resp.thoughts then
        [OutItem.line "=== Thinking ===", OutItem.line (resp.thoughts.getD ""),
         OutItem.line "\n=== Response ==="]
      else [])
    ++ [if resp.text != "" then OutItem.line resp.text else OutItem.line "(empty response)"]

/-- The image-persisting tail of the image branch (wrapper.py lines
238-266): no images left after fallback → diagnostic and exit 1; otherwise
save the first artifact to the chosen path (the source splits it into
directory and filename for the save call), note the count when more than
one image arrived, and render.  A raised save exception is caught by the
surrounding handler (stderr `Error: ...`, exit 1). -/
def handleImages (env : Env) (a : Request) (resp : Response) : RunOut :=
  if resp.images.isEmpty then
    { events := [],
      stdout := [if resp.text != "" then OutItem.line resp.text else OutItem.line "(empty response)"],
      stderr := ["No images generated. Response text:"],
      exit := some 1 }
  else
    let outPath := chosenOutputPath a
    let saveEv := Ev.saveImage outPath (resp.images.headD 0)
    match env.saveExc with
    | some e =>
        { events := [saveEv], stdout := [], stderr := ["Error: " ++ e], exit := some 1 }
    | none =>
        let n := resp.images.length
        let noteErr := if 1 < n then ["(" ++ toString n ++ " images generated, saved first one)"] else []
        let renderOut :=
          if a.json_output then
            [OutItem.jsonObj ("Saved: " ++ outPath) none true n]
          else
            OutItem.line ("Saved: " ++ outPath) ::
              (if resp.text != "" then [OutItem.line ("\nResponse: " ++ resp.text)] else [])
        { events := [saveEv], stdout := renderOut, stderr := noteErr, exit := none }

/-- Dispatch shape selection (wrapper.py lines 210-218). -/
def dispatchShape (resolvedFiles : List String) (editPath : Option String) : Shape :=
  match editPath with
  | some p => Shape.edit p
  | none => if resolvedFiles.isEmpty then Shape.plain else Shape.withFiles resolvedFiles

/-- The prompt actually sent: for the edit shape, the synthesized second
turn `"Use image generation tool to " ++ prompt` (wrapper.py line 213). -/
def sentPromptFor (shape : Shape) (prompt : String) : String :=
  match shape with
  | Shape.edit _ => "Use image generation tool to " ++ prompt
  | _ => prompt

/-- The fallback retry loop (wrapper.py lines 223-236): for each fallback
model in order, print the retry line, re-dispatch the same shape, and stop
at the first response with a non-empty image list; a raised exception
aborts the loop and propagates to the handler. -/
def fallbackLoop (env : Env) (shape : Shape) (sent : String) :
    Nat → List String → Response → List Ev × List String × Except String Response
  | _, [], r => ([], [], Except.ok r)
  | k, m :: ms, _r =>
    match env.dispatchResult k with
    | Except.error e =>
        ([Ev.dispatch shape m sent], ["Retrying image generation with " ++ m ++ "..."],
          Except.error e)
    | Except.ok r2 =>
        if r2.images.isEmpty then
          let rest := fallbackLoop env shape sent (k + 1) ms r2
          (Ev.dispatch shape m sent :: rest.1,
            ("Retrying image generation with " ++ m ++ "...") :: rest.2.1, rest.2.2)
        else
          ([Ev.dispatch shape m sent], ["Retrying image generation with " ++ m ++ "..."],
            Except.ok r2)

/-- The guarded body of the `try` block (wrapper.py lines 209-289):
first dispatch, image fallback policy, image persistence or rendering;
any raised exception becomes stderr `Error: ...` with exit 1. -/
def runBody (env : Env) (a : Request) (prompt : String) (resolvedFiles : List String)
    (editPath : Option String) : RunOut :=
  let shape := dispatchShape resolvedFiles editPath
  let sent := sentPromptFor shape prompt
  match env.dispatchResult 0 with
  | Except.error e =>
      { events := [Ev.dispatch shape a.model sent], stdout := [],
        stderr := ["Error: " ++ e], exit := some 1 }
  | Except.ok resp0 =>
      if truthy a.generate_image || editPath.isSome then
        if resp0.images.isEmpty && (resp0.text != "")
            && strStartsWith resp0.text placeholderUrl && (a.model == "gemini-3.0-pro") then
          let fb := fallbackLoop env shape sent 1 ["gemini-2.5-pro", "gemini-2.5-flash"] resp0
          match fb.2.2 with
          | Except.error e =>
              { events := Ev.dispatch shape a.model sent :: fb.1, stdout := [],
                stderr := fb.2.1 ++ ["Error: " ++ e], exit := some 1 }
          | Except.ok resp =>
              let h := handleImages env a resp
              { events := Ev.dispatch shape a.model sent :: fb.1 ++ h.events,
                stdout := h.stdout, stderr := fb.2.1 ++ h.stderr, exit := h.exit }
        else
          let h := handleImages env a resp0
          { events := Ev.dispatch shape a.model sent :: h.events,
            stdout := h.stdout, stderr := h.stderr, exit := h.exit }
      else
        { events := [Ev.dispatch shape a.model sent], stdout := renderNonImage a resp0,
          stderr := [], exit := none }

/-- The runner (wrapper.py lines 151-291): prompt augmentation, path
validation (exit 1 naming the first missing path, before any client
activity), client construction and `init` (failures exit 1 without
reaching the `try`/`finally`), then the guarded body whose every exit path
runs `client.close()` in the `finally` block. -/
def run (env : Env) (a : Request) : RunOut :=
  let prompt := augmentPrompt a
  match checkFilesLoop env a.files with
  | (fileEvs, Except.error f) =>
      { events := fileEvs, stdout := [], stderr := ["Error: File not found: " ++ f],
        exit := some 1 }
  | (fileEvs, Except.ok resolvedFiles) =>
      if truthy a.edit && !(env.pathExists (a.edit.getD "")) then
        { events := fileEvs ++ [Ev.checkFile (a.edit.getD "")], stdout := [],
          stderr := ["Error: Image not found: " ++ a.edit.getD ""], exit := some 1 }
      else
        let editEvs := if truthy a.edit then [Ev.checkFile (a.edit.getD "")] else []
        let editPath := if truthy a.edit then some (env.resolve (a.edit.getD "")) else none
        if !env.constructOk then
          { events := fileEvs ++ editEvs ++ [Ev.clientConstruct (explicitCreds env)],
            stdout := [],
            stderr := ["Initializing Gemini client...",
                       "Error initializing client: " ++ env.initErrText,
                       "Make sure you're logged into gemini.google.com in Chrome"],
            exit := some 1 }
        else if !env.initOk then
          { events := fileEvs ++ editEvs ++ [Ev.clientConstruct (explicitCreds env), Ev.clientInit],
            stdout := [],
            stderr := ["Initializing Gemini client...",
                       "Error initializing client: " ++ env.initErrText,
                       "Make sure you're logged into gemini.google.com in Chrome"],
            exit := some 1 }
        else
          let body := runBody env a prompt resolvedFiles editPath
          { events := fileEvs ++ editEvs
              ++ [Ev.clientConstruct (explicitCreds env), Ev.clientInit]
              ++ body.events ++ [Ev.close],
            stdout := body.stdout,
            stderr := ["Initializing Gemini client...", "Querying " ++ a.model ++ "..."]
              ++ body.stderr,
            exit := body.exit }

/-- Projection of a dispatch event to its (shape, model, sent-prompt). -/
def dispatchOf : Ev → Option (Shape × String × String)
  | Ev.dispatch s m p => some (s, m, p)
  | _ => none

/-- Projection of a save event to its (path, image). -/
def saveOf : Ev → Option (String × Nat)
  | Ev.saveImage p i => some (p, i)
  | _ => none

/-- The (shape, model, sent-prompt) triples of the dispatch events, in order. -/
def dispatchCalls (o : RunOut) : List (Shape × String × String) :=
  o.events.filterMap dispatchOf

/-- How many times the session was released. -/
def closeCount (o : RunOut) : Nat := o.events.count Ev.close

/-- The (path, image) pairs persisted, in order. -/
def savedTargets (o : RunOut) : List (String × Nat) :=
  o.events.filterMap saveOf

/-- Everything except a path-existence check counts as post-validation
activity (client construction, initialization, dispatch, save, close). -/
def isNetworkEv : Ev → Bool
  | Ev.checkFile _ => false
  | _ => true

/-- All attachment paths and (when truthy) the edit path exist. -/
def pathsOk (env : Env) (a : Request) : Prop :=
  (∀ f ∈ a.files, env.pathExists f = true)
  ∧ (truthy a.edit = true → env.pathExists (a.edit.getD "") = true)

/-! ## String append helpers -/

theorem string_append_assoc (a b c : String) : a ++ b ++ c = a ++ (b ++ c) := by
  cases a with | mk la =>
  cases b with | mk lb =>
  cases c with | mk lc =>
  show String.mk (la ++ lb ++ lc) = String.mk (la ++ (lb ++ lc))
  rw [List.append_assoc]

theorem string_append_empty (a : String) : a ++ "" = a := by
  cases a with | mk la =>
  show String.mk (la ++ []) = String.mk la
  rw [List.append_nil]

/-! ## C5: prompt augmentation -/

/-- Concrete request for the C5 counterexample: `--aspect` and `--youtube`
given with empty-string values behave (through Python truthiness) as if
absent. -/
def reqEmptyAspectYoutube : Request :=
  { defaultRequest with
    prompt := "hi"
    aspect := some ""
    generate_image := some "o.png"
    youtube := some "" }

/-- C5 counterexample: `--aspect ""` on an image operation appends nothing
and `--youtube ""` appends nothing, because the source tests Python
truthiness (empty string is falsy), so "for every flag combination with
`--youtube U` the final prompt ends with `YouTube video: U`" fails at
`U = ""`, and the aspect clause fails at `R = ""`. -/
theorem augment_prompt_empty_values_counterexample :
    parse_args ["hi", "--aspect", "", "--generate-image", "o.png", "--youtube", ""]
      = ParseResult.ok reqEmptyAspectYoutube
    ∧ augmentPrompt reqEmptyAspectYoutube = "Generate an image: hi"
    ∧ strEndsWith (augmentPrompt reqEmptyAspectYoutube) "YouTube video: " = false
    ∧ strContains (augmentPrompt reqEmptyAspectYoutube) "(aspect ratio:" = false :=
  ⟨by decide, by decide, by decide, by decide⟩

theorem aspect_decomp1 (p R : String) :
    ∃ pre post, p ++ " (aspect ratio: " ++ R ++ ")"
      = pre ++ (" (aspect ratio: " ++ (R ++ (")" ++ post))) :=
  ⟨p, "", by simp [string_append_assoc, string_append_empty]⟩

theorem aspect_decomp2 (p R t1 t2 : String) :
    ∃ pre post, (p ++ " (aspect ratio: " ++ R ++ ")" ++ t1) ++ t2
      = pre ++ (" (aspect ratio: " ++ (R ++ (")" ++ post))) :=
  ⟨p, t1 ++ t2, by simp [string_append_assoc]⟩

theorem aspect_pre_mono (g s R : String)
    (h : ∃ pre post, s = pre ++ (" (aspect ratio: " ++ (R ++ (")" ++ post)))) :
    ∃ pre post, g ++ s = pre ++ (" (aspect ratio: " ++ (R ++ (")" ++ post))) := by
  obtain ⟨pre, post, hp⟩ := h
  exact ⟨g ++ pre, post, by rw [hp, ← string_append_assoc]⟩

theorem yt_decomp (x u : String) :
    ∃ pre, x ++ "\n\nYouTube video: " ++ u = pre ++ ("YouTube video: " ++ u) := by
  refine ⟨x ++ "\n\n", ?_⟩
  rw [string_append_assoc, string_append_assoc]
  apply congrArg
  rw [← string_append_assoc]
  exact congrArg (fun z => z ++ u) (by decide)

theorem yt_pre_mono (g s u : String)
    (h : ∃ pre, s = pre ++ ("YouTube video: " ++ u)) :
    ∃ pre, g ++ s = pre ++ ("YouTube video: " ++ u) := by
  obtain ⟨pre, hp⟩ := h
  exact ⟨g ++ pre, by rw [hp, ← string_append_assoc]⟩

/-- C5 (amended): prompt augmentation is pure and applied in source order —
(1) a non-empty aspect ratio R on an image operation appends
`" (aspect ratio: R)"`, (2) a non-empty YouTube URL appends the
`"YouTube video: URL"` line after a blank line, (3) generating an image
without editing prepends `"Generate an image: "` — so with aspect `16:9`
and `--generate-image` the final prompt contains the literal substring
`"(aspect ratio: 16:9)"`, and for every flag combination whose `--youtube`
value U is non-empty the final prompt ends with `"YouTube video: U"`. -/
theorem augment_prompt_ordered :
    (∀ (a : Request) (R : String), a.aspect = some R → R ≠ "" →
        (truthy a.generate_image = true ∨ truthy a.edit = true) →
        ∃ pre post, augmentPrompt a = pre ++ (" (aspect ratio: " ++ (R ++ (")" ++ post))))
    ∧ (∀ (a : Request) (u : String), a.youtube = some u → u ≠ "" →
        ∃ pre, augmentPrompt a = pre ++ ("YouTube video: " ++ u))
    ∧ (∀ (a : Request), truthy a.generate_image = true → truthy a.edit = false →
        ∃ t, augmentPrompt a = "Generate an image: " ++ t)
    ∧ augmentPrompt { defaultRequest with
        prompt := "cat"
        aspect := some "16:9"
        generate_image := some "o.png" } = "Generate an image: cat (aspect ratio: 16:9)" := by
  refine ⟨?_, ?_, ?_, by decide⟩
  · intro a R hA hR himg
    have hsR : truthy (some R) = true := by simpa [truthy] using hR
    have hcond : (truthy a.aspect && (truthy a.generate_image || truthy a.edit)) = true := by
      rw [hA]
      rcases himg with h | h <;> simp [hsR, h]
    simp only [augmentPrompt]
    rw [if_pos hcond, hA]
    simp only [Option.getD_some]
    by_cases h3 : truthy a.youtube = true
    · rw [if_pos h3]
      by_cases h4 : (truthy a.generate_image && !truthy a.edit) = true
      · rw [if_pos h4]
        exact aspect_pre_mono _ _ _ (aspect_decomp2 _ _ _ _)
      · rw [if_neg h4]
        exact aspect_decomp2 _ _ _ _
    · rw [if_neg h3]
      by_cases h4 : (truthy a.generate_image && !truthy a.edit) = true
      · rw [if_pos h4]
        exact aspect_pre_mono _ _ _ (aspect_decomp1 _ _)
      · rw [if_neg h4]
        exact aspect_decomp1 _ _
  · intro a u hU hu
    have h3 : truthy a.youtube = true := by rw [hU]; simpa [truthy] using hu
    simp only [augmentPrompt]
    rw [if_pos h3, hU]
    simp only [Option.getD_some]
    by_cases h4 : (truthy a.generate_image && !truthy a.edit) = true
    · rw [if_pos h4]
      exact yt_pre_mono _ _ _ (yt_decomp _ _)
    · rw [if_neg h4]
      exact yt_decomp _ _
  · intro a hg he
    have hcond : (truthy a.generate_image && !truthy a.edit) = true := by simp [hg, he]
    simp only [augmentPrompt]
    rw [if_pos hcond]
    exact ⟨_, rfl⟩

/-- Concrete request for the C5 witness. -/
def reqAspectYoutube : Request :=
  { defaultRequest with
    prompt := "p"
    aspect := some "1:1"
    youtube := some "u"
    generate_image := some "g.png" }

theorem augment_prompt_ordered_witness :
    (reqAspectYoutube.aspect = some "1:1" ∧ "1:1" ≠ ""
      ∧ (truthy reqAspectYoutube.generate_image = true ∨ truthy reqAspectYoutube.edit = true)
      ∧ ∃ pre post, augmentPrompt reqAspectYoutube
          = pre ++ (" (aspect ratio: " ++ ("1:1" ++ (")" ++ post))))
    ∧ (reqAspectYoutube.youtube = some "u" ∧ "u" ≠ ""
      ∧ ∃ pre, augmentPrompt reqAspectYoutube = pre ++ ("YouTube video: " ++ "u")) :=
  ⟨⟨rfl, by decide, Or.inl (by decide),
      augment_prompt_ordered.1 reqAspectYoutube "1:1" rfl (by decide) (Or.inl (by decide))⟩,
    ⟨rfl, by decide,
      augment_prompt_ordered.2.1 reqAspectYoutube "u" rfl (by decide)⟩⟩

/-! ## C7: thoughts suppressed in JSON output -/

/-- C7: when `--json` is set and `show_thoughts` is false, the emitted JSON
object carries `thoughts = null` even if the response holds a non-empty
thoughts string; and the image-request JSON summary carries
`thoughts = null` regardless of `show_thoughts`. -/
theorem json_thoughts_null :
    (∀ (a : Request) (resp : Response), a.json_output = true → a.show_thoughts = false →
      renderNonImage a resp
        = [OutItem.jsonObj resp.text none (!resp.images.isEmpty) resp.images.length])
    ∧ (∀ (env : Env) (a : Request) (resp : Response), a.json_output = true →
        resp.images ≠ [] → env.saveExc = none →
        (handleImages env a resp).stdout
          = [OutItem.jsonObj ("Saved: " ++ chosenOutputPath a) none true resp.images.length]) := by
  constructor
  · intro a resp hj hst
    have hns : ¬ (a.show_thoughts = true) := by rw [hst]; exact Bool.false_ne_true
    simp only [renderNonImage]
    rw [if_pos hj, if_neg hns]
  · intro env a resp hj hi hs
    have hne : ¬ (resp.images.isEmpty = true) := by
      simpa [List.isEmpty_iff] using hi
    simp only [handleImages, hs]
    rw [if_neg hne]
    simp only []
    rw [if_pos hj]

/-- Concrete inputs for the C7 witness: the response carries a non-empty
thoughts string, yet the JSON output holds `thoughts = null`. -/
def respWithThoughts : Response :=
  { text := "t", thoughts := some "secret reasoning", images := [] }

def respWithImage : Response :=
  { text := "t", thoughts := some "secret reasoning", images := [4] }

def envPlain : Env :=
  { pathExists := fun _ => true
    resolve := fun s => "/abs/" ++ s
    secure1psid := none
    secure1psidts := none
    nid := none
    constructOk := true
    initOk := true
    initErrText := ""
    dispatchResult := fun _ => Except.ok respWithThoughts
    saveExc := none }

theorem json_thoughts_null_witness :
    (({ defaultRequest with prompt := "q", json_output := true } : Request).json_output = true
      ∧ ({ defaultRequest with prompt := "q", json_output := true } : Request).show_thoughts = false
      ∧ renderNonImage { defaultRequest with prompt := "q", json_output := true } respWithThoughts
          = [OutItem.jsonObj respWithThoughts.text none (!respWithThoughts.images.isEmpty)
              respWithThoughts.images.length])
    ∧ (respWithImage.images ≠ [] ∧ envPlain.saveExc = none
      ∧ (handleImages envPlain { defaultRequest with prompt := "q", json_output := true }
            respWithImage).stdout
          = [OutItem.jsonObj
              ("Saved: " ++ chosenOutputPath { defaultRequest with prompt := "q", json_output := true })
              none true respWithImage.images.length]) :=
  ⟨⟨rfl, rfl,
      json_thoughts_null.1 { defaultRequest with prompt := "q", json_output := true }
        respWithThoughts rfl rfl⟩,
    ⟨by decide, rfl,
      json_thoughts_null.2 envPlain { defaultRequest with prompt := "q", json_output := true }
        respWithImage rfl (by decide) rfl⟩⟩

/-! ## Trace lemmas for the runner -/

theorem checkFilesLoop_ok (env : Env) (fs : List String)
    (h : ∀ f ∈ fs, env.pathExists f = true) :
    checkFilesLoop env fs = (fs.map Ev.checkFile, Except.ok (fs.map env.resolve)) := by
  induction fs with
  | nil => rfl
  | cons f fs ih =>
    have hf : env.pathExists f = true := h f (by simp)
    have hrest := ih (fun g hg => h g (by simp [hg]))
    simp [checkFilesLoop, hf, hrest]

theorem checkFilesLoop_err (env : Env) (fs : List String)
    (h : ¬ ∀ f ∈ fs, env.pathExists f = true) :
    ∃ evs p, checkFilesLoop env fs = (evs, Except.error p) ∧ p ∈ fs
      ∧ env.pathExists p = false ∧ ∀ e ∈ evs, ∃ q, e = Ev.checkFile q := by
  induction fs with
  | nil => exact absurd (by simp) h
  | cons f fs ih =>
    by_cases hf : env.pathExists f = true
    · have hrest : ¬ ∀ g ∈ fs, env.pathExists g = true := by
        intro hall
        exact h (by
          intro g hg
          rcases List.mem_cons.mp hg with rfl | hg2
          · exact hf
          · exact hall g hg2)
      obtain ⟨evs, p, heq, hmem, hpe, hck⟩ := ih hrest
      refine ⟨Ev.checkFile f :: evs, p, ?_, by simp [hmem], hpe, ?_⟩
      · simp [checkFilesLoop, hf, heq]
      · intro e he
        rcases List.mem_cons.mp he with rfl | he2
        · exact ⟨f, rfl⟩
        · exact hck e he2
    · refine ⟨[Ev.checkFile f], f, ?_, by simp, by simpa using hf, ?_⟩
      · simp [checkFilesLoop, hf]
      · intro e he
        simp only [List.mem_singleton] at he
        exact ⟨f, he⟩

/-- The shape `run` takes when all paths exist and the client constructs
and initializes: checks, construct, init, guarded body, close. -/
theorem run_ok_unfold (env : Env) (a : Request) (hp : pathsOk env a)
    (hc : env.constructOk = true) (hi : env.initOk = true) :
    run env a =
      { events := (a.files.map Ev.checkFile)
          ++ (if truthy a.edit then [Ev.checkFile (a.edit.getD "")] else [])
          ++ [Ev.clientConstruct (explicitCreds env), Ev.clientInit]
          ++ (runBody env a (augmentPrompt a) (a.files.map env.resolve)
                (if truthy a.edit then some (env.resolve (a.edit.getD "")) else none)).events
          ++ [Ev.close]
        stdout := (runBody env a (augmentPrompt a) (a.files.map env.resolve)
            (if truthy a.edit then some (env.resolve (a.edit.getD "")) else none)).stdout
        stderr := ["Initializing Gemini client...", "Querying " ++ a.model ++ "..."]
          ++ (runBody env a (augmentPrompt a) (a.files.map env.resolve)
                (if truthy a.edit then some (env.resolve (a.edit.getD "")) else none)).stderr
        exit := (runBody env a (augmentPrompt a) (a.files.map env.resolve)
            (if truthy a.edit then some (env.resolve (a.edit.getD "")) else none)).exit } := by
  obtain ⟨h1, h2⟩ := hp
  simp only [run, checkFilesLoop_ok env a.files h1]
  by_cases he : truthy a.edit = true
  · have hee := h2 he
    simp [he, hee, hc, hi]
  · have he2 : truthy a.edit = false := by
      cases hb : truthy a.edit
      · rfl
      · exact absurd hb he
    simp [he2, hc, hi]

theorem handleImages_no_close (env : Env) (a : Request) (resp : Response) :
    (handleImages env a resp).events.count Ev.close = 0 := by
  simp only [handleImages]
  by_cases hk : resp.images.isEmpty = true
  · rw [if_pos hk]
    rfl
  · rw [if_neg hk]
    cases env.saveExc <;> simp

theorem fallback_no_close (env : Env) (shape : Shape) (sent : String) :
    ∀ (ms : List String) (k : Nat) (r : Response),
      ((fallbackLoop env shape sent k ms r).1).count Ev.close = 0 := by
  intro ms
  induction ms with
  | nil => intro k r; rfl
  | cons m ms ih =>
    intro k r
    simp only [fallbackLoop]
    cases env.dispatchResult k with
    | error e => simp
    | ok r2 =>
      simp only []
      by_cases hk : r2.images.isEmpty = true
      · rw [if_pos hk]
        simpa using ih (k + 1) r2
      · rw [if_neg hk]
        simp

theorem runBody_no_close (env : Env) (a : Request) (p : String) (rf : List String)
    (ep : Option String) :
    (runBody env a p rf ep).events.count Ev.close = 0 := by
  simp only [runBody]
  cases env.dispatchResult 0 with
  | error e => simp
  | ok resp0 =>
    simp only []
    by_cases h1 : (truthy a.generate_image || ep.isSome) = true
    · rw [if_pos h1]
      by_cases h2 : (resp0.images.isEmpty && (resp0.text != "")
          && strStartsWith resp0.text placeholderUrl && (a.model == "gemini-3.0-pro")) = true
      · rw [if_pos h2]
        cases hfb : (fallbackLoop env (dispatchShape rf ep) (sentPromptFor (dispatchShape rf ep) p)
            1 ["gemini-2.5-pro", "gemini-2.5-flash"] resp0).2.2 with
        | error e =>
          simp only [hfb]
          simp [fallback_no_close]
        | ok resp =>
          simp only [hfb]
          simp [fallback_no_close, handleImages_no_close]
      · rw [if_neg h2]
        simp [handleImages_no_close]
    · rw [if_neg h1]
      simp

/-! ## C2 and C9: session release -/

theorem count_close_checkFiles (fs : List String) :
    (fs.map Ev.checkFile).count Ev.close = 0 := by
  rw [List.count_eq_zero]
  intro hmem
  obtain ⟨f, _, hf⟩ := List.mem_map.mp hmem
  exact Ev.noConfusion hf

/-- C2: for every invocation that reaches dispatch (paths validated, client
constructed and initialized), the session handle is released exactly once
on every exit path — successful render, a raised dispatch/render error, and
the fallback-exhausted no-images failure are all covered because the
environment's dispatch results, save behaviour and request are universally
quantified. -/
theorem session_released_exactly_once (env : Env) (a : Request)
    (hp : pathsOk env a) (hc : env.constructOk = true) (hi : env.initOk = true) :
    closeCount (run env a) = 1 := by
  rw [closeCount, run_ok_unfold env a hp hc hi]
  simp only [List.count_append]
  have h1 := count_close_checkFiles a.files
  have h2 : (if truthy a.edit then [Ev.checkFile (a.edit.getD "")] else []).count Ev.close
      = 0 := by
    by_cases he : truthy a.edit = true <;> simp [he]
  rw [h1, h2, runBody_no_close]
  rfl

theorem session_released_exactly_once_witness :
    pathsOk envPlain { defaultRequest with prompt := "q" }
    ∧ envPlain.constructOk = true ∧ envPlain.initOk = true
    ∧ closeCount (run envPlain { defaultRequest with prompt := "q" }) = 1 := by
  have hp : pathsOk envPlain { defaultRequest with prompt := "q" } := by
    constructor
    · intro f hf
      rfl
    · intro h
      rfl
  exact ⟨hp, rfl, rfl, session_released_exactly_once envPlain _ hp rfl rfl⟩

/-- C9: when path validation passes but client construction or `init`
raises, the process exits with code 1 and `client.close` is never invoked
(the `try`/`finally` begins only at dispatch), although construction was
attempted. -/
theorem init_failure_skips_release (env : Env) (a : Request)
    (hp : pathsOk env a) (hci : env.constructOk = false ∨ env.initOk = false) :
    (run env a).exit = some 1 ∧ closeCount (run env a) = 0
      ∧ Ev.clientConstruct (explicitCreds env) ∈ (run env a).events := by
  obtain ⟨h1, h2⟩ := hp
  have hch := checkFilesLoop_ok env a.files h1
  have hcnt := count_close_checkFiles a.files
  cases hcb : env.constructOk with
  | false =>
    by_cases he : truthy a.edit = true
    · have hee := h2 he
      simp only [run, hch]
      simp [he, hee, hcb, closeCount, List.count_append, hcnt]
    · have he2 : truthy a.edit = false := by
        cases hb : truthy a.edit
        · rfl
        · exact absurd hb he
      simp only [run, hch]
      simp [he2, hcb, closeCount, List.count_append, hcnt]
  | true =>
    have hib : env.initOk = false := by
      rcases hci with hcf | hif
      · rw [hcb] at hcf
        exact Bool.noConfusion hcf
      · exact hif
    by_cases he : truthy a.edit = true
    · have hee := h2 he
      simp only [run, hch]
      simp [he, hee, hcb, hib, closeCount, List.count_append, hcnt]
    · have he2 : truthy a.edit = false := by
        cases hb : truthy a.edit
        · rfl
        · exact absurd hb he
      simp only [run, hch]
      simp [he2, hcb, hib, closeCount, List.count_append, hcnt]

def envNoInit : Env := { envPlain with initOk := false }

theorem init_failure_skips_release_witness :
    pathsOk envNoInit { defaultRequest with prompt := "q" }
    ∧ (envNoInit.constructOk = false ∨ envNoInit.initOk = false)
    ∧ ((run envNoInit { defaultRequest with prompt := "q" }).exit = some 1
      ∧ closeCount (run envNoInit { defaultRequest with prompt := "q" }) = 0
      ∧ Ev.clientConstruct (explicitCreds envNoInit)
          ∈ (run envNoInit { defaultRequest with prompt := "q" }).events) := by
  have hp : pathsOk envNoInit { defaultRequest with prompt := "q" } := by
    constructor
    · intro f hf
      rfl
    · intro h
      rfl
  exact ⟨hp, Or.inr rfl, init_failure_skips_release envNoInit _ hp (Or.inr rfl)⟩

/-! ## C4: path validation before any network activity -/

/-- C4: every attached file and the (truthy) edit-target image is checked
for existence before any client activity: when some path is missing the
process exits with code 1, a stderr message names the missing path, and
the trace holds no client construction, initialization, dispatch, save or
close event — so no partial network state is left behind. -/
theorem missing_path_fails_before_network (env : Env) (a : Request)
    (h : ¬ pathsOk env a) :
    (run env a).exit = some 1
    ∧ (∀ e ∈ (run env a).events, isNetworkEv e = false)
    ∧ ∃ p, env.pathExists p = false
        ∧ ((p ∈ a.files ∧ ("Error: File not found: " ++ p) ∈ (run env a).stderr)
          ∨ (a.edit = some p ∧ ("Error: Image not found: " ++ p) ∈ (run env a).stderr)) := by
  by_cases hfiles : ∀ f ∈ a.files, env.pathExists f = true
  · have ht : truthy a.edit = true := by
      by_contra ht
      exact h ⟨hfiles, fun hx => absurd hx ht⟩
    have hpe : env.pathExists (a.edit.getD "") = false := by
      cases hb : env.pathExists (a.edit.getD "")
      · rfl
      · exact absurd ⟨hfiles, fun _ => hb⟩ h
    have hcond : (truthy a.edit && !(env.pathExists (a.edit.getD ""))) = true := by
      rw [ht, hpe]
      rfl
    have hch := checkFilesLoop_ok env a.files hfiles
    have hsome : a.edit = some (a.edit.getD "") := by
      cases han : a.edit
      · rw [han] at ht
        exact Bool.noConfusion ht
      · rfl
    simp only [run, hch]
    rw [if_pos hcond]
    refine ⟨rfl, ?_, a.edit.getD "", hpe, Or.inr ⟨hsome, by simp⟩⟩
    intro e he
    rcases List.mem_append.mp he with hm1 | hm2
    · obtain ⟨f, _, hf⟩ := List.mem_map.mp hm1
      rw [← hf]
      rfl
    · rw [List.mem_singleton.mp hm2]
      rfl
  · obtain ⟨evs, p, heq, hmem, hpe, hck⟩ := checkFilesLoop_err env a.files hfiles
    simp only [run, heq]
    refine ⟨trivial, ?_, p, hpe, Or.inl ⟨hmem, by simp⟩⟩
    intro e he
    obtain ⟨q, hq⟩ := hck e he
    rw [hq]
    rfl

def envNoFiles : Env := { envPlain with pathExists := fun _ => false }

def reqWithFile : Request := { defaultRequest with prompt := "q", files := ["missing.txt"] }

theorem missing_path_fails_before_network_witness :
    (¬ pathsOk envNoFiles reqWithFile)
    ∧ (run envNoFiles reqWithFile).exit = some 1
    ∧ ∃ p, envNoFiles.pathExists p = false
        ∧ ((p ∈ reqWithFile.files
              ∧ ("Error: File not found: " ++ p) ∈ (run envNoFiles reqWithFile).stderr)
          ∨ (reqWithFile.edit = some p
              ∧ ("Error: Image not found: " ++ p) ∈ (run envNoFiles reqWithFile).stderr)) := by
  have hnp : ¬ pathsOk envNoFiles reqWithFile := by
    intro hp
    have := hp.1 "missing.txt" (by simp [reqWithFile, defaultRequest])
    exact Bool.noConfusion this
  have hmain := missing_path_fails_before_network envNoFiles reqWithFile hnp
  exact ⟨hnp, hmain.1, hmain.2.2⟩

/-! ## C1: bounded ordered image-generation fallback -/

theorem filterMap_dispatchOf_checks (fs : List String) :
    (fs.map Ev.checkFile).filterMap dispatchOf = [] := by
  rw [List.filterMap_eq_nil_iff]
  intro e he
  obtain ⟨f, _, hf⟩ := List.mem_map.mp he
  rw [← hf]
  rfl

theorem handleImages_no_dispatch (env : Env) (a : Request) (resp : Response) :
    (handleImages env a resp).events.filterMap dispatchOf = [] := by
  simp only [handleImages]
  by_cases hk : resp.images.isEmpty = true
  · rw [if_pos hk]
    rfl
  · rw [if_neg hk]
    cases env.saveExc <;> rfl

theorem fallback_events_len (env : Env) (shape : Shape) (sent : String) :
    ∀ (ms : List String) (k : Nat) (r : Response),
      ((fallbackLoop env shape sent k ms r).1).length ≤ ms.length := by
  intro ms
  induction ms with
  | nil =>
    intro k r
    exact Nat.le_refl 0
  | cons m ms ih =>
    intro k r
    simp only [fallbackLoop]
    cases env.dispatchResult k with
    | error e => simp
    | ok r2 =>
      simp only []
      by_cases hk : r2.images.isEmpty = true
      · rw [if_pos hk]
        simpa using Nat.succ_le_succ (ih (k + 1) r2)
      · rw [if_neg hk]
        simp

theorem runBody_dispatch_le (env : Env) (a : Request) (p : String)
    (rf : List String) (ep : Option String) :
    ((runBody env a p rf ep).events.filterMap dispatchOf).length ≤ 3 := by
  simp only [runBody]
  cases env.dispatchResult 0 with
  | error e => simp [dispatchOf]
  | ok resp0 =>
    simp only []
    by_cases h1 : (truthy a.generate_image || ep.isSome) = true
    · rw [if_pos h1]
      by_cases h2 : (resp0.images.isEmpty && (resp0.text != "")
          && strStartsWith resp0.text placeholderUrl && (a.model == "gemini-3.0-pro")) = true
      · rw [if_pos h2]
        have hfl : ((fallbackLoop env (dispatchShape rf ep)
            (sentPromptFor (dispatchShape rf ep) p) 1 ["gemini-2.5-pro", "gemini-2.5-flash"]
            resp0).1.filterMap dispatchOf).length ≤ 2 := by
          calc ((fallbackLoop env (dispatchShape rf ep)
              (sentPromptFor (dispatchShape rf ep) p) 1 ["gemini-2.5-pro", "gemini-2.5-flash"]
              resp0).1.filterMap dispatchOf).length
              ≤ ((fallbackLoop env (dispatchShape rf ep)
                  (sentPromptFor (dispatchShape rf ep) p) 1
                  ["gemini-2.5-pro", "gemini-2.5-flash"] resp0).1).length :=
                List.length_filterMap_le _ _
            _ ≤ 2 := fallback_events_len env _ _ _ 1 resp0
        cases hfb : (fallbackLoop env (dispatchShape rf ep)
            (sentPromptFor (dispatchShape rf ep) p) 1 ["gemini-2.5-pro", "gemini-2.5-flash"]
            resp0).2.2 with
        | error e =>
          simp only [hfb]
          simp only [List.filterMap_cons, dispatchOf, List.length_cons]
          omega
        | ok resp =>
          simp only [hfb]
          simp only [List.filterMap_cons, List.filterMap_append, dispatchOf,
            handleImages_no_dispatch, List.length_cons, List.length_append,
            List.length_nil]
          omega
      · rw [if_neg h2]
        simp [List.filterMap_cons, dispatchOf, handleImages_no_dispatch]
    · rw [if_neg h1]
      simp [dispatchOf]

theorem checkFilesLoop_events_check (env : Env) :
    ∀ (fs : List String), ∀ e ∈ (checkFilesLoop env fs).1, ∃ q, e = Ev.checkFile q := by
  intro fs
  induction fs with
  | nil =>
    intro e he
    simp [checkFilesLoop] at he
  | cons f fs ih =>
    intro e he
    simp only [checkFilesLoop] at he
    by_cases hf : env.pathExists f = true
    · rw [if_pos hf] at he
      rcases hcf : checkFilesLoop env fs with ⟨evs, res⟩
      rw [hcf] at he ih
      cases res with
      | ok rs =>
        simp only [] at he
        rcases List.mem_cons.mp he with rfl | he2
        · exact ⟨f, rfl⟩
        · exact ih e he2
      | error q =>
        simp only [] at he
        rcases List.mem_cons.mp he with rfl | he2
        · exact ⟨f, rfl⟩
        · exact ih e he2
    · rw [if_neg hf] at he
      rw [List.mem_singleton.mp he]
      exact ⟨f, rfl⟩

theorem run_dispatch_le (env : Env) (a : Request) :
    (dispatchCalls (run env a)).length ≤ 3 := by
  rw [dispatchCalls]
  simp only [run]
  rcases hch : checkFilesLoop env a.files with ⟨evs, res⟩
  have hevs : ∀ e ∈ evs, ∃ q, e = Ev.checkFile q := by
    have hh := checkFilesLoop_events_check env a.files
    rw [hch] at hh
    exact hh
  have hevs0 : evs.filterMap dispatchOf = [] := by
    rw [List.filterMap_eq_nil_iff]
    intro e he
    obtain ⟨q, hq⟩ := hevs e he
    rw [hq]
    rfl
  cases res with
  | error f => simp [hevs0]
  | ok rfiles =>
    simp only []
    by_cases hco : (truthy a.edit && !(env.pathExists (a.edit.getD ""))) = true
    · rw [if_pos hco]
      simp [List.filterMap_append, hevs0, dispatchOf]
    · rw [if_neg hco]
      cases hcb : env.constructOk with
      | false =>
        by_cases he : truthy a.edit = true <;>
          simp [he, hcb, hevs0, List.filterMap_append, dispatchOf]
      | true =>
        cases hib : env.initOk with
        | false =>
          by_cases he : truthy a.edit = true <;>
            simp [he, hcb, hib, hevs0, List.filterMap_append, dispatchOf]
        | true =>
          by_cases he : truthy a.edit = true <;>
            simpa [he, hcb, hib, hevs0, List.filterMap_append, dispatchOf]
              using runBody_dispatch_le env a (augmentPrompt a) rfiles _

theorem dispatchCalls_runBody (env : Env) (a : Request)
    (hp : pathsOk env a) (hc : env.constructOk = true) (hi : env.initOk = true) :
    dispatchCalls (run env a)
      = (runBody env a (augmentPrompt a) (a.files.map env.resolve)
          (if truthy a.edit then some (env.resolve (a.edit.getD "")) else none)).events.filterMap
            dispatchOf := by
  rw [dispatchCalls, run_ok_unfold env a hp hc hi]
  by_cases he : truthy a.edit = true <;>
    simp [he, List.filterMap_append, filterMap_dispatchOf_checks, dispatchOf]

/-- C1: for an image-generation or edit request whose first response has no
image artifacts, whose text is exactly the placeholder URL prefix, and
whose model is the default `gemini-3.0-pro`, the runner retries the same
dispatch shape (same shape and same sent prompt) sequentially against the
fixed ordered fallback models `gemini-2.5-pro`, `gemini-2.5-flash` — at
most two fallback attempts, stopping at the first attempt whose response
has at least one image artifact; a first response with a non-empty image
list triggers zero fallback attempts; and no run ever dispatches more than
three times. -/
theorem image_fallback_policy (env : Env) (a : Request) (r0 r1 : Response)
    (hp : pathsOk env a) (hc : env.constructOk = true) (hi : env.initOk = true)
    (himg : truthy a.generate_image = true ∨ truthy a.edit = true)
    (hm : a.model = "gemini-3.0-pro")
    (h0 : env.dispatchResult 0 = Except.ok r0)
    (h1 : env.dispatchResult 1 = Except.ok r1) :
    (r0.images ≠ [] → ∃ s p, dispatchCalls (run env a) = [(s, "gemini-3.0-pro", p)])
    ∧ (r0.images = [] → r0.text = placeholderUrl →
        (r1.images ≠ [] → ∃ s p, dispatchCalls (run env a)
            = [(s, "gemini-3.0-pro", p), (s, "gemini-2.5-pro", p)])
        ∧ (r1.images = [] → ∃ s p, dispatchCalls (run env a)
            = [(s, "gemini-3.0-pro", p), (s, "gemini-2.5-pro", p),
                (s, "gemini-2.5-flash", p)]))
    ∧ (∀ (env2 : Env) (a2 : Request), (dispatchCalls (run env2 a2)).length ≤ 3) := by
  have hrw := dispatchCalls_runBody env a hp hc hi
  have himg2 : (truthy a.generate_image
      || (if truthy a.edit then some (env.resolve (a.edit.getD "")) else none).isSome)
        = true := by
    rcases himg with hg | he2
    · simp [hg]
    · simp [he2]
  refine ⟨?_, ?_, fun env2 a2 => run_dispatch_le env2 a2⟩
  · intro hA
    have h5 : r0.images.isEmpty = false := by
      cases him : r0.images with
      | nil => exact absurd him hA
      | cons x xs => rfl
    rw [hrw]
    simp only [runBody, h0]
    rw [if_pos himg2, if_neg (by simp [h5])]
    simp only [List.filterMap_cons, dispatchOf, handleImages_no_dispatch]
    rw [hm]
    exact ⟨_, _, rfl⟩
  · intro hA hT
    have h5 : r0.images.isEmpty = true := by rw [hA]; rfl
    have h6 : (r0.text != "") = true := by rw [hT]; decide
    have h7 : strStartsWith r0.text placeholderUrl = true := by rw [hT]; decide
    have h8 : (a.model == "gemini-3.0-pro") = true := by rw [hm]; decide
    have htrig : (r0.images.isEmpty && (r0.text != "")
        && strStartsWith r0.text placeholderUrl && (a.model == "gemini-3.0-pro")) = true := by
      rw [h5, h6, h7, h8]
      rfl
    constructor
    · intro hB
      have h9 : r1.images.isEmpty = false := by
        cases him : r1.images with
        | nil => exact absurd him hB
        | cons x xs => rfl
      rw [hrw]
      simp only [runBody, h0]
      rw [if_pos himg2, if_pos htrig]
      simp only [fallbackLoop, h1]
      rw [if_neg (by simp [h9])]
      simp only [List.filterMap_cons, List.filterMap_append, dispatchOf,
        handleImages_no_dispatch, List.append_nil]
      rw [hm]
      exact ⟨_, _, rfl⟩
    · intro hB
      have h9 : r1.images.isEmpty = true := by rw [hB]; rfl
      rw [hrw]
      simp only [runBody, h0]
      rw [if_pos himg2, if_pos htrig]
      simp only [fallbackLoop, h1]
      rw [if_pos h9]
      cases hd2 : env.dispatchResult 2 with
      | error e =>
        simp only [hd2]
        simp only [List.filterMap_cons, List.filterMap_append, dispatchOf]
        rw [hm]
        exact ⟨_, _, rfl⟩
      | ok r2 =>
        simp only [hd2]
        by_cases hk2 : r2.images.isEmpty = true
        · rw [if_pos hk2]
          simp only [fallbackLoop]
          simp only [List.filterMap_cons, List.filterMap_append, dispatchOf,
            handleImages_no_dispatch, List.append_nil]
          rw [hm]
          exact ⟨_, _, rfl⟩
        · rw [if_neg hk2]
          simp only [List.filterMap_cons, List.filterMap_append, dispatchOf,
            handleImages_no_dispatch, List.append_nil]
          rw [hm]
          exact ⟨_, _, rfl⟩

def respPlaceholder : Response := { text := placeholderUrl, thoughts := none, images := [] }

def respImage : Response := { text := "", thoughts := none, images := [9] }

def envFallback : Env :=
  { envPlain with
    dispatchResult := fun k => if k = 0 then Except.ok respPlaceholder else Except.ok respImage }

def reqGen : Request := { defaultRequest with prompt := "q", generate_image := some "out.png" }

theorem image_fallback_policy_witness :
    pathsOk envFallback reqGen
    ∧ envFallback.constructOk = true ∧ envFallback.initOk = true
    ∧ truthy reqGen.generate_image = true
    ∧ reqGen.model = "gemini-3.0-pro"
    ∧ envFallback.dispatchResult 0 = Except.ok respPlaceholder
    ∧ envFallback.dispatchResult 1 = Except.ok respImage
    ∧ respPlaceholder.images = [] ∧ respPlaceholder.text = placeholderUrl
    ∧ respImage.images ≠ []
    ∧ ∃ s p, dispatchCalls (run envFallback reqGen)
        = [(s, "gemini-3.0-pro", p), (s, "gemini-2.5-pro", p)] := by
  have hp : pathsOk envFallback reqGen := ⟨fun f hf => rfl, fun h => rfl⟩
  refine ⟨hp, rfl, rfl, by decide, rfl, rfl, rfl, rfl, rfl, by decide, ?_⟩
  exact ((image_fallback_policy envFallback reqGen respPlaceholder respImage hp rfl rfl
      (Or.inl (by decide)) rfl rfl rfl).2.1 rfl rfl).1 (by decide)

/-! ## C6: first image persisted, output path selection -/

def reqEditEmptyGen : Request :=
  { defaultRequest with
    prompt := "p"
    edit := some "img.png"
    generate_image := some "" }

def respOneImage : Response := { text := "t", thoughts := none, images := [7] }

def envOneImage : Env := { envPlain with dispatchResult := fun _ => Except.ok respOneImage }

/-- C6 counterexample: on an edit request with `--generate-image ""` the
`--generate-image` flag is set, yet the image is saved to `generated.png`
rather than to the flag's (empty) value, because the source selects the
path by Python truthiness (`args["generate_image"] or args["output"] or
"generated.png"`), under which the empty string counts as unset. -/
theorem output_path_empty_generate_counterexample :
    reqEditEmptyGen.generate_image = some ""
    ∧ savedTargets (run envOneImage reqEditEmptyGen) = [("generated.png", 7)]
    ∧ chosenOutputPath reqEditEmptyGen = "generated.png" :=
  ⟨rfl, by decide, by decide⟩

theorem filterMap_saveOf_checks (fs : List String) :
    (fs.map Ev.checkFile).filterMap saveOf = [] := by
  rw [List.filterMap_eq_nil_iff]
  intro e he
  obtain ⟨f, _, hf⟩ := List.mem_map.mp he
  rw [← hf]
  rfl

theorem savedTargets_runBody (env : Env) (a : Request)
    (hp : pathsOk env a) (hc : env.constructOk = true) (hi : env.initOk = true) :
    savedTargets (run env a)
      = (runBody env a (augmentPrompt a) (a.files.map env.resolve)
          (if truthy a.edit then some (env.resolve (a.edit.getD "")) else none)).events.filterMap
            saveOf := by
  rw [savedTargets, run_ok_unfold env a hp hc hi]
  by_cases he : truthy a.edit = true <;>
    simp [he, List.filterMap_append, filterMap_saveOf_checks, saveOf]

theorem handleImages_save (env : Env) (a : Request) (resp : Response)
    (hs : env.saveExc = none) (hne : resp.images ≠ []) :
    (handleImages env a resp).events
        = [Ev.saveImage (chosenOutputPath a) (resp.images.headD 0)]
    ∧ (handleImages env a resp).stderr
        = (if 1 < resp.images.length
            then ["(" ++ toString resp.images.length ++ " images generated, saved first one)"]
            else []) := by
  have hk : ¬ (resp.images.isEmpty = true) := by simpa [List.isEmpty_iff] using hne
  simp only [handleImages, hs]
  rw [if_neg hk]
  exact ⟨rfl, rfl⟩

/-- C6 (amended): for every image request whose (possibly post-fallback)
response has a non-empty image list, exactly the first image artifact is
persisted; the output path is the `--generate-image` value if that value is
non-empty, else the `--output` value if non-empty, else `generated.png`
(so on an edit request with neither flag the path defaults to
`generated.png`); and when more than one image was returned the count is
noted on the error stream. -/
theorem first_image_saved (env : Env) (a : Request) (r0 : Response)
    (hp : pathsOk env a) (hc : env.constructOk = true) (hi : env.initOk = true)
    (himg : truthy a.generate_image = true ∨ truthy a.edit = true)
    (hs : env.saveExc = none)
    (h0 : env.dispatchResult 0 = Except.ok r0) :
    (r0.images ≠ [] →
        savedTargets (run env a) = [(chosenOutputPath a, r0.images.headD 0)]
        ∧ (1 < r0.images.length →
            ("(" ++ toString r0.images.length ++ " images generated, saved first one)")
              ∈ (run env a).stderr))
    ∧ (∀ (r1 : Response), r0.images = [] → r0.text = placeholderUrl →
        a.model = "gemini-3.0-pro" → env.dispatchResult 1 = Except.ok r1 → r1.images ≠ [] →
        savedTargets (run env a) = [(chosenOutputPath a, r1.images.headD 0)])
    ∧ (∀ (a2 : Request) (g : String), a2.generate_image = some g → g ≠ "" →
        chosenOutputPath a2 = g)
    ∧ (∀ (a2 : Request) (o : String), truthy a2.generate_image = false →
        a2.output = some o → o ≠ "" → chosenOutputPath a2 = o)
    ∧ (∀ (a2 : Request), truthy a2.generate_image = false → truthy a2.output = false →
        chosenOutputPath a2 = "generated.png") := by
  have himg2 : (truthy a.generate_image
      || (if truthy a.edit then some (env.resolve (a.edit.getD "")) else none).isSome)
        = true := by
    rcases himg with hg | he2
    · simp [hg]
    · simp [he2]
  refine ⟨?_, ?_, ?_, ?_, ?_⟩
  · intro hA
    have h5 : r0.images.isEmpty = false := by
      cases him : r0.images with
      | nil => exact absurd him hA
      | cons x xs => rfl
    obtain ⟨hev, herr⟩ := handleImages_save env a r0 hs hA
    constructor
    · rw [savedTargets_runBody env a hp hc hi]
      simp only [runBody, h0]
      rw [if_pos himg2, if_neg (by simp [h5])]
      simp only [List.filterMap_cons, saveOf, hev]
      rfl
    · intro hlen
      rw [run_ok_unfold env a hp hc hi]
      simp only [runBody, h0]
      rw [if_pos himg2, if_neg (by simp [h5])]
      rw [herr] at *
      simp [hlen]
  · intro r1 hA hT hm h1 hB
    have h5 : r0.images.isEmpty = true := by rw [hA]; rfl
    have h6 : (r0.text != "") = true := by rw [hT]; decide
    have h7 : strStartsWith r0.text placeholderUrl = true := by rw [hT]; decide
    have h8 : (a.model == "gemini-3.0-pro") = true := by rw [hm]; decide
    have htrig : (r0.images.isEmpty && (r0.text != "")
        && strStartsWith r0.text placeholderUrl && (a.model == "gemini-3.0-pro")) = true := by
      rw [h5, h6, h7, h8]
      rfl
    have h9 : r1.images.isEmpty = false := by
      cases him : r1.images with
      | nil => exact absurd him hB
      | cons x xs => rfl
    obtain ⟨hev, herr⟩ := handleImages_save env a r1 hs hB
    rw [savedTargets_runBody env a hp hc hi]
    simp only [runBody, h0]
    rw [if_pos himg2, if_pos htrig]
    simp only [fallbackLoop, h1]
    rw [if_neg (by simp [h9])]
    simp only [List.filterMap_cons, List.filterMap_append, saveOf, hev]
    rfl
  · intro a2 g hg hne
    have ht : truthy a2.generate_image = true := by rw [hg]; simpa [truthy] using hne
    simp only [chosenOutputPath]
    rw [if_pos ht, hg]
    rfl
  · intro a2 o hgf ho hne
    have ht : truthy a2.output = true := by rw [ho]; simpa [truthy] using hne
    have hgf2 : ¬ (truthy a2.generate_image = true) := by rw [hgf]; exact Bool.false_ne_true
    simp only [chosenOutputPath]
    rw [if_neg hgf2, if_pos ht, ho]
    rfl
  · intro a2 hgf hof
    have hgf2 : ¬ (truthy a2.generate_image = true) := by rw [hgf]; exact Bool.false_ne_true
    have hof2 : ¬ (truthy a2.output = true) := by rw [hof]; exact Bool.false_ne_true
    simp only [chosenOutputPath]
    rw [if_neg hgf2, if_neg hof2]

def respTwoImages : Response := { text := "t", thoughts := none, images := [5, 6] }

def envTwoImages : Env := { envPlain with dispatchResult := fun _ => Except.ok respTwoImages }

def reqEditOnly : Request := { defaultRequest with prompt := "p", edit := some "img.png" }

theorem first_image_saved_witness :
    pathsOk envTwoImages reqEditOnly
    ∧ envTwoImages.saveExc = none
    ∧ truthy reqEditOnly.edit = true
    ∧ envTwoImages.dispatchResult 0 = Except.ok respTwoImages
    ∧ respTwoImages.images ≠ []
    ∧ (savedTargets (run envTwoImages reqEditOnly)
          = [(chosenOutputPath reqEditOnly, respTwoImages.images.headD 0)]
        ∧ (1 < respTwoImages.images.length →
            ("(" ++ toString respTwoImages.images.length ++ " images generated, saved first one)")
              ∈ (run envTwoImages reqEditOnly).stderr)) := by
  have hp : pathsOk envTwoImages reqEditOnly := ⟨fun f hf => rfl, fun h => rfl⟩
  refine ⟨hp, rfl, by decide, rfl, by decide, ?_⟩
  exact (first_image_saved envTwoImages reqEditOnly respTwoImages hp rfl rfl
      (Or.inr (by decide)) rfl rfl).1 (by decide)

end Oracle
